import Mathlib

/-!
Verification development for the mist_library scripts:
  * `report_gateway_firmware.py` (Firmware Reporter), embedded in
    namespace `Report`;
  * `fix_gateway_backup_firmware.py` (Backup Trigger), embedded in
    namespace `Fix`;
  * `org_admins_import.py` (Admin Inviter), embedded in namespace
    `OrgAdmins`.

Python dictionaries with possibly-absent keys are modelled as records of
`Option` fields (`none` = key absent, so `dict.get(k)` is the field value
and `dict.get(k, d)` is `Option.getD d`).  `sys.exit(n)` paths are
modelled as explicit exit codes, exceptions as `Except` errors, and the
remote API as an explicit function argument.
-/

/-- Python substring containment `needle in hay` on lists of characters. -/
def listHasSub (needle : List Char) : List Char → Bool
  | [] => decide (needle = [])
  | c :: rest => needle.isPrefixOf (c :: rest) || listHasSub needle rest

/-- Python `needle in hay` for strings. -/
def strContains (hay needle : String) : Bool :=
  listHasSub needle.toList hay.toList

/-- Python `str.lower()` (ASCII-relevant part, applied charwise). -/
def strLower (s : String) : String :=
  String.mk (s.data.map Char.toLower)

/-- Python truthiness of an optional string: `None` and `""` are falsy. -/
def falsyStr : Option String → Bool
  | none => true
  | some s => s == ""

namespace Report

/-- A `module_stat` / `module2_stat` entry of a gateway device stat
object (the fields read by `_process_module`). -/
structure ModuleStat where
  serial : Option String
  mac : Option String
  model : Option String
  version : Option String
  backup_version : Option String
  pending_version : Option String
deriving DecidableEq

/-- The empty dict `{}` used as default module (`.get("module_stat", [{}])`). -/
def emptyModule : ModuleStat :=
  { serial := none, mac := none, model := none, version := none,
    backup_version := none, pending_version := none }

/-- A gateway device stat object (the fields read by `_process_gateways`). -/
structure GatewayStat where
  name : Option String
  version : Option String
  id : Option String
  site_id : Option String
  module_stat : Option (List ModuleStat)
  module2_stat : Option (List ModuleStat)
deriving DecidableEq

/-- A row of the firmware report (the dict literal built by
`_process_module`). -/
structure ReportRow where
  cluster_name : Option String
  cluster_version : Option String
  cluster_device_id : Option String
  cluster_site_id : Option String
  module_serial : Option String
  module_mac : Option String
  module_model : Option String
  module_version : Option String
  module_backup_version : Option String
  module_need_snapshot : Bool
  module_pending_version : Option String
  module_need_reboot : Bool
deriving DecidableEq

/-- The dict literal appended by `_process_module`: a pure function of the
cluster fields and the single module record. -/
def _module_row (cluster_name cluster_version cluster_device_id
    cluster_site_id : Option String) (m : ModuleStat) : ReportRow :=
  { cluster_name := cluster_name
    cluster_version := cluster_version
    cluster_device_id := cluster_device_id
    cluster_site_id := cluster_site_id
    module_serial := m.serial
    module_mac := m.mac
    module_model := m.model
    module_version := m.version
    module_backup_version := m.backup_version
    module_need_snapshot := m.version != m.backup_version
    module_pending_version := m.pending_version
    module_need_reboot := m.pending_version.getD "" != "" }

/-- `_process_module(...)`: appends one row to `data`. -/
def _process_module (cluster_name cluster_version cluster_device_id
    cluster_site_id : Option String) (m : ModuleStat)
    (data : List ReportRow) : List ReportRow :=
  data ++ [_module_row cluster_name cluster_version cluster_device_id
    cluster_site_id m]

/-- Python `list[0]`: raises `IndexError` on an empty list. -/
def indexZero (l : List ModuleStat) : Except String ModuleStat :=
  match l with
  | [] => Except.error "IndexError"
  | m :: _ => Except.ok m

/-- Python truthiness of `cluster.get("module2_stat")`: present and
non-empty. -/
def truthyModules : Option (List ModuleStat) → Bool
  | none => false
  | some l => !l.isEmpty

/-- The body of the `for cluster in gateways` loop of
`_process_gateways`, for one cluster, threading the accumulated `data`. -/
def _process_cluster (cluster : GatewayStat) (data : List ReportRow) :
    Except String (List ReportRow) := do
  let m ← indexZero (cluster.module_stat.getD [emptyModule])
  let data1 := _process_module cluster.name cluster.version cluster.id
    cluster.site_id m data
  if truthyModules cluster.module2_stat then
    let m2 ← indexZero (cluster.module2_stat.getD [emptyModule])
    pure (_process_module cluster.name cluster.version cluster.id
      cluster.site_id m2 data1)
  else
    pure data1

/-- The loop of `_process_gateways` (Reporter): an exception raised on
any cluster propagates out of the loop. -/
def _process_gateways_loop (gateways : List GatewayStat)
    (data : List ReportRow) : Except String (List ReportRow) :=
  match gateways with
  | [] => Except.ok data
  | c :: rest => do
      let data1 ← _process_cluster c data
      _process_gateways_loop rest data1

/-- `_process_gateways(gateways)` of the Reporter. -/
def _process_gateways (gateways : List GatewayStat) :
    Except String (List ReportRow) :=
  _process_gateways_loop gateways []

/-- The `while response.next` accumulation loop shared by
`_get_org_gateways` and `_get_site_gateways`: `gateways` holds the data
already fetched, `rest` the data of the remaining linked pages. -/
def pageLoop (gateways : List GatewayStat) :
    List (List GatewayStat) → List GatewayStat
  | [] => gateways
  | p :: ps => pageLoop (gateways ++ p) ps

/-- `_get_org_gateways`: first page, then follow `next` links. -/
def _get_org_gateways (firstPage : List GatewayStat)
    (nextPages : List (List GatewayStat)) : List GatewayStat :=
  pageLoop firstPage nextPages

/-- `_get_site_gateways`: identical loop over the site-scope listing. -/
def _get_site_gateways (firstPage : List GatewayStat)
    (nextPages : List (List GatewayStat)) : List GatewayStat :=
  pageLoop firstPage nextPages

/-- A generic data row handed to `_save_as_csv`: a Python dict modelled
as an association list in insertion order (keys unique in practice;
lookup takes the first match, as a dict would). -/
def Entry : Type := List (String × String)

/-- The keys of an entry, in insertion order. -/
def entryKeys (e : Entry) : List String :=
  e.map Prod.fst

/-- `entry.get(header, "")`. -/
def entryGet (e : Entry) (k : String) : String :=
  match List.lookup k e with
  | some v => v
  | none => ""

/-- The header-collection loop of `_save_as_csv` restricted to one
entry: `for key in entry: if not key in headers: headers.append(key)`. -/
def collectKeys (headers : List String) : List String → List String
  | [] => headers
  | k :: rest =>
    if k ∈ headers then collectKeys headers rest
    else collectKeys (headers ++ [k]) rest

/-- The full header-collection loop of `_save_as_csv` over all
entries. -/
def collectHeaders (data : List Entry) : List String :=
  data.foldl (fun hs e => collectKeys hs (entryKeys e)) []

/-- The comment written as the first line of the report. -/
def commentCell (scope scope_id : String) : String :=
  "#Gateways Firmware Backup for " ++ scope ++ " " ++ scope_id

/-- `_save_as_csv(data, scope, scope_id, ...)`: the rows passed to
`csv_writer.writerow`, in order (file-name suffixing elided; it does not
affect the rows). -/
def _save_as_csv (data : List Entry) (scope scope_id : String) :
    List (List String) :=
  let headers := collectHeaders data
  [commentCell scope scope_id] :: headers ::
    data.map (fun e => headers.map (fun h => entryGet e h))

/-- First character of a serialized CSV line is `'#'`.  A line's first
character is the first character of its first cell (the report's cells
need no quoting). -/
def lineIsComment (row : List String) : Bool :=
  match row with
  | [] => false
  | c :: _ =>
    match c.toList with
    | [] => false
    | ch :: _ => ch == '#'

/-- The Backup Trigger's `filter(lambda row: row[0]!='#', f)` applied to
the written lines. -/
def skipComments (rows : List (List String)) : List (List String) :=
  rows.filter (fun r => !lineIsComment r)

end Report

namespace Fix

/-- A data row of the CSV report as read back by `csv.DictReader` in the
Backup Trigger (the fields the script accesses; `none` = key absent from
the header). -/
structure CsvRow where
  module_model : Option String
  cluster_site_id : Option String
  module_need_snapshot : Option String
  cluster_device_id : Option String
  module_mac : Option String
deriving DecidableEq

/-- `MISTAPI_MIN_VERSION` of the Backup Trigger. -/
def MISTAPI_MIN_VERSION : String := "0.53.0"

/-- The `for row in reader` loop of `_read_csv`: `data` and `device_ids`
are the accumulators; `"SRX" in None` raises a `TypeError`. -/
def readCsvLoop (site_id : Option String) :
    List CsvRow → List CsvRow → List (Option String) →
    Except String (List CsvRow)
  | [], data, _ => Except.ok data
  | row :: rest, data, device_ids =>
    match row.module_model with
    | none => Except.error "TypeError"
    | some m =>
      if !strContains m "SRX" then
        readCsvLoop site_id rest data device_ids
      else if !falsyStr site_id && row.cluster_site_id != site_id then
        readCsvLoop site_id rest data device_ids
      else if row.module_need_snapshot != some "True" then
        readCsvLoop site_id rest data device_ids
      else if row.cluster_device_id ∈ device_ids then
        readCsvLoop site_id rest data device_ids
      else
        readCsvLoop site_id rest (data ++ [row])
          (device_ids ++ [row.cluster_device_id])

/-- `_read_csv` applied to the already-parsed data rows (comment lines
having been dropped by the `filter` on raw lines).  An `error` result
stands for the `except:` branch, which exits with code 1. -/
def _read_csv (site_id : Option String) (rows : List CsvRow) :
    Except String (List CsvRow) :=
  readCsvLoop site_id rows [] []

/-- Outcome of one `createSiteDeviceSnapshot` API call: an HTTP response
or a raised exception. -/
inductive ApiResult
  | ok (status_code : Nat)
  | raised
deriving DecidableEq

/-- Counters accumulated over the `_process_gateways` loop of the
Backup Trigger: successes, failures, and API calls issued. -/
structure TriggerOutcome where
  successes : Nat
  failures : Nat
  apiCalls : Nat
deriving DecidableEq

/-- One iteration of the Backup Trigger's `_process_gateways` loop:
whether the device is logged as a success, and how many API calls were
issued for it (`0` when an id is missing, `1` otherwise; the `except:`
catches any raised call as a failure). -/
def gatewayOutcome (api : CsvRow → ApiResult) (r : CsvRow) : Bool × Nat :=
  if falsyStr r.cluster_site_id then (false, 0)
  else if falsyStr r.cluster_device_id then (false, 0)
  else
    match api r with
    | ApiResult.ok code => (code == 200, 1)
    | ApiResult.raised => (false, 1)

/-- The `for gateway in gateways` loop of the Backup Trigger's
`_process_gateways`; no iteration can abort the batch. -/
def processLoop (api : CsvRow → ApiResult) :
    List CsvRow → TriggerOutcome → TriggerOutcome
  | [], acc => acc
  | r :: rest, acc =>
    let o := gatewayOutcome api r
    processLoop api rest
      { successes := acc.successes + (if o.1 then 1 else 0)
        failures := acc.failures + (if o.1 then 0 else 1)
        apiCalls := acc.apiCalls + o.2 }

/-- `_process_gateways(apisession, gateways)` of the Backup Trigger. -/
def _process_gateways (api : CsvRow → ApiResult) (rows : List CsvRow) :
    TriggerOutcome :=
  processLoop api rows { successes := 0, failures := 0, apiCalls := 0 }

/-- Observable outcome of one run of the Backup Trigger. -/
structure TriggerRun where
  exitCode : Option Nat
  printedCompliance : Bool
  prompted : Bool
  outcome : Option TriggerOutcome
deriving DecidableEq

/-- `_start(apisession, site_id, csv_file, auto_approve)`.  `csvRead` is
the result of opening and parsing the CSV file (`error` = the file could
not be read); `answer` is what the user types at the `_request_approval`
prompt.  Exit code 1 covers both CSV failure modes (unreadable file, or
a `TypeError` inside the row loop), both caught by the `except:` of
`_read_csv`. -/
def _start (api : CsvRow → ApiResult) (site_id : Option String)
    (csvRead : Except Unit (List CsvRow)) (auto_approve : Bool)
    (answer : String) : TriggerRun :=
  match csvRead with
  | Except.error _ =>
    { exitCode := some 1, printedCompliance := false, prompted := false,
      outcome := none }
  | Except.ok rows =>
    match _read_csv site_id rows with
    | Except.error _ =>
      { exitCode := some 1, printedCompliance := false, prompted := false,
        outcome := none }
    | Except.ok data =>
      if data.isEmpty then
        { exitCode := some 0, printedCompliance := true, prompted := false,
          outcome := none }
      else if auto_approve then
        { exitCode := some 0, printedCompliance := false, prompted := false,
          outcome := some (_process_gateways api data) }
      else if strLower answer == "y" then
        { exitCode := some 0, printedCompliance := false, prompted := true,
          outcome := some (_process_gateways api data) }
      else
        { exitCode := some 0, printedCompliance := false, prompted := true,
          outcome := none }

/-- The entry point of the Backup Trigger: the `import mistapi` guard
(exit 2), `--help` handling (exit 0 via `usage()`),
`check_mistapi_version()` (exit 2; the source compares version strings
with Python's lexicographic `<`), then `_start`. -/
def triggerMain (installed : Bool) (version : String)
    (helpRequested : Bool) (api : CsvRow → ApiResult)
    (site_id : Option String) (csvRead : Except Unit (List CsvRow))
    (auto_approve : Bool) (answer : String) : TriggerRun :=
  if !installed then
    { exitCode := some 2, printedCompliance := false, prompted := false,
      outcome := none }
  else if helpRequested then
    { exitCode := some 0, printedCompliance := false, prompted := false,
      outcome := none }
  else if version < MISTAPI_MIN_VERSION then
    { exitCode := some 2, printedCompliance := false, prompted := false,
      outcome := none }
  else
    _start api site_id csvRead auto_approve answer

end Fix

namespace OrgAdmins

/-- `row[0], row[1], row[2]` of a CSV row: `none` models the
`IndexError` raised when the row has fewer than 3 columns. -/
def rowFields (row : List String) : Option (String × String × String) :=
  match row with
  | e :: f :: l :: _ => some (e, f, l)
  | _ => none

/-- Observable outcome of one run of `org_admins_import.py`. -/
structure InviteRun where
  issued : List (String × String × String)
  errorReported : Bool
  adminListPrinted : Bool
deriving DecidableEq

/-- The `for row in invite_file` loop: one `create_invite` call per row
until (if ever) a row raises, in which case the single `except:` stops
the loop and prints the generic error message. -/
def inviteLoop : List (List String) → List (String × String × String) →
    List (String × String × String) × Bool
  | [], acc => (acc, false)
  | row :: rest, acc =>
    match rowFields row with
    | some t => inviteLoop rest (acc ++ [t])
    | none => (acc, true)

/-- The whole import script after the privilege prompts: read the CSV,
invite per row inside one catch-all `try/except`, then print the org's
admin list regardless. -/
def runImport (rows : List (List String)) : InviteRun :=
  let res := inviteLoop rows []
  { issued := res.1, errorReported := res.2, adminListPrinted := true }

end OrgAdmins

namespace Fix

/-- Spec-side selection predicate for the Backup Trigger, written from
the spec's words: model contains "SRX" AND need_snapshot == "True" AND
(no site filter OR site matches). -/
def specQualifies (site_id : Option String) (r : CsvRow) : Bool :=
  (match r.module_model with
   | some m => strContains m "SRX"
   | none => false)
  && (r.module_need_snapshot == some "True")
  && (match site_id with
      | none => true
      | some s => (s == "") || (r.cluster_site_id == some s))

/-- Spec-side deduplication by `cluster_device_id`, first occurrence
wins; `seen` holds the device ids already selected. -/
def dedupFirstBy (seen : List (Option String)) :
    List CsvRow → List CsvRow
  | [] => []
  | r :: rest =>
    if r.cluster_device_id ∈ seen then dedupFirstBy seen rest
    else r :: dedupFirstBy (r.cluster_device_id :: seen) rest

/-- Spec-side `_read_csv`: filter by the selection predicate, then keep
the first row per device id. -/
def specSelect (site_id : Option String) (rows : List CsvRow) :
    List CsvRow :=
  dedupFirstBy [] (rows.filter (specQualifies site_id))

/-- A concrete candidate row for the batch-semantics scenario. -/
def mkCandidate (dev : String) : CsvRow :=
  { module_model := some "SRX345"
    cluster_site_id := some "site1"
    module_need_snapshot := some "True"
    cluster_device_id := some dev
    module_mac := some "mac" }

/-- Five concrete candidates. -/
def rows5 : List CsvRow :=
  [mkCandidate "d1", mkCandidate "d2", mkCandidate "d3",
   mkCandidate "d4", mkCandidate "d5"]

/-- An API in which the calls for candidates 2 and 4 raise and every
other call returns HTTP 200. -/
def apiScenario (r : CsvRow) : ApiResult :=
  if r.cluster_device_id == some "d2" || r.cluster_device_id == some "d4"
  then ApiResult.raised
  else ApiResult.ok 200

/-- A row whose `module_model` key is absent from the header:
`"SRX" in None` raises a `TypeError` inside `_read_csv`. -/
def rowNoModel : CsvRow :=
  { module_model := none
    cluster_site_id := some "site1"
    module_need_snapshot := some "True"
    cluster_device_id := some "d0"
    module_mac := some "mac" }

/-- A row with no site id (per-item failure without an API call). -/
def rowMissingSite : CsvRow :=
  { module_model := some "SRX345"
    cluster_site_id := none
    module_need_snapshot := some "True"
    cluster_device_id := some "d9"
    module_mac := some "mac" }

end Fix

namespace Report

/-- Spec-side first-seen deduplication of a key sequence: `seen` holds
the keys already emitted. -/
def firstSeenAux (seen : List String) : List String → List String
  | [] => []
  | k :: rest =>
    if k ∈ seen then firstSeenAux seen rest
    else k :: firstSeenAux (k :: seen) rest

/-- Spec-side header row: the union of the keys seen across all data
rows, in first-seen order. -/
def specHeaders (data : List Entry) : List String :=
  firstSeenAux [] (data.map entryKeys).flatten

/-- The rows one gateway device stat object contributes when its
`module_stat`, if present, is non-empty: the primary-module row, plus a
second-module row exactly when `module2_stat` is truthy. -/
def deviceRows (g : GatewayStat) : List ReportRow :=
  match g.module_stat.getD [emptyModule] with
  | [] => []
  | m :: _ =>
    match g.module2_stat with
    | some (m2 :: _) =>
      [_module_row g.name g.version g.id g.site_id m,
       _module_row g.name g.version g.id g.site_id m2]
    | _ => [_module_row g.name g.version g.id g.site_id m]

/-- A gateway whose `module_stat` key is present but holds an empty
list. -/
def gwEmptyModuleStat : GatewayStat :=
  { name := some "gw", version := some "1.0", id := some "id1",
    site_id := some "s1", module_stat := some [], module2_stat := none }

/-- A concrete module record. -/
def sampleModule : ModuleStat :=
  { serial := some "SN1", mac := some "aa:bb", model := some "SRX345",
    version := some "1.0", backup_version := some "1.0",
    pending_version := none }

/-- A gateway that lacks the `module_stat` key but carries a truthy
`module2_stat`. -/
def gwNoPrimaryWithSecond : GatewayStat :=
  { name := some "gw2", version := some "1.0", id := some "id2",
    site_id := some "s1", module_stat := none,
    module2_stat := some [sampleModule] }

end Report

/-! ## Helper lemmas -/

namespace Report

theorem pageLoop_eq (ps : List (List GatewayStat)) :
    ∀ acc, pageLoop acc ps = acc ++ ps.flatten := by
  induction ps with
  | nil => intro acc; simp [pageLoop]
  | cons p ps ih =>
    intro acc
    simp [pageLoop, ih (acc ++ p)]

theorem _process_cluster_eq (g : GatewayStat) (data : List ReportRow)
    (h : g.module_stat ≠ some []) :
    _process_cluster g data = Except.ok (data ++ deviceRows g) := by
  rw [_process_cluster, deviceRows]
  cases hms : g.module_stat with
  | none =>
    cases hm2 : g.module2_stat with
    | none => simp [indexZero, truthyModules, _process_module, Bind.bind, Except.bind, Pure.pure, Except.pure]
    | some l2 =>
      cases l2 with
      | nil => simp [indexZero, truthyModules, _process_module, Bind.bind, Except.bind, Pure.pure, Except.pure]
      | cons m2 t2 => simp [indexZero, truthyModules, _process_module, Bind.bind, Except.bind, Pure.pure, Except.pure]
  | some l =>
    cases l with
    | nil => exact absurd hms h
    | cons m t =>
      cases hm2 : g.module2_stat with
      | none => simp [indexZero, truthyModules, _process_module, Bind.bind, Except.bind, Pure.pure, Except.pure]
      | some l2 =>
        cases l2 with
        | nil => simp [indexZero, truthyModules, _process_module, Bind.bind, Except.bind, Pure.pure, Except.pure]
        | cons m2 t2 => simp [indexZero, truthyModules, _process_module, Bind.bind, Except.bind, Pure.pure, Except.pure]

theorem _process_gateways_loop_eq (gws : List GatewayStat) :
    ∀ data, (∀ g ∈ gws, g.module_stat ≠ some []) →
      _process_gateways_loop gws data
        = Except.ok (data ++ (gws.map deviceRows).flatten) := by
  induction gws with
  | nil => intro data _; simp [_process_gateways_loop]
  | cons g rest ih =>
    intro data h
    rw [_process_gateways_loop,
      _process_cluster_eq g data (h g (by simp))]
    show _process_gateways_loop rest (data ++ deviceRows g) = _
    rw [ih _ (fun g2 hg2 => h g2 (by simp [hg2]))]
    simp

theorem deviceRows_length (g : GatewayStat) (h : g.module_stat ≠ some []) :
    (deviceRows g).length
      = if truthyModules g.module2_stat then 2 else 1 := by
  rw [deviceRows]
  cases hms : g.module_stat with
  | none =>
    cases hm2 : g.module2_stat with
    | none => simp [truthyModules]
    | some l2 => cases l2 <;> simp [truthyModules]
  | some l =>
    cases l with
    | nil => exact absurd hms h
    | cons m t =>
      cases hm2 : g.module2_stat with
      | none => simp [truthyModules]
      | some l2 => cases l2 <;> simp [truthyModules]

end Report

namespace Report

theorem mem_collectKeys (l : List String) :
    ∀ acc x, x ∈ collectKeys acc l ↔ x ∈ acc ∨ x ∈ l := by
  induction l with
  | nil => intro acc x; simp [collectKeys]
  | cons k rest ih =>
    intro acc x
    by_cases hk : k ∈ acc
    · rw [collectKeys, if_pos hk, ih]
      simp only [List.mem_cons]
      constructor
      · rintro (hx | hx)
        · exact Or.inl hx
        · exact Or.inr (Or.inr hx)
      · rintro (hx | hx | hx)
        · exact Or.inl hx
        · exact Or.inl (hx ▸ hk)
        · exact Or.inr hx
    · rw [collectKeys, if_neg hk, ih]
      simp only [List.mem_append, List.mem_singleton, List.mem_cons]
      tauto

theorem firstSeenAux_congr (l : List String) :
    ∀ seen1 seen2, (∀ x, x ∈ seen1 ↔ x ∈ seen2) →
      firstSeenAux seen1 l = firstSeenAux seen2 l := by
  induction l with
  | nil => intro seen1 seen2 _; rfl
  | cons k rest ih =>
    intro seen1 seen2 h
    rw [firstSeenAux, firstSeenAux]
    by_cases hk : k ∈ seen1
    · rw [if_pos hk, if_pos ((h k).mp hk)]
      exact ih seen1 seen2 h
    · rw [if_neg hk, if_neg (fun hc => hk ((h k).mpr hc))]
      rw [ih (k :: seen1) (k :: seen2) (by intro x; simp [h x])]

theorem collectKeys_eq (l : List String) :
    ∀ acc, collectKeys acc l = acc ++ firstSeenAux acc l := by
  induction l with
  | nil => intro acc; simp [collectKeys, firstSeenAux]
  | cons k rest ih =>
    intro acc
    by_cases hk : k ∈ acc
    · rw [collectKeys, if_pos hk, firstSeenAux, if_pos hk, ih]
    · rw [collectKeys, if_neg hk, firstSeenAux, if_neg hk, ih (acc ++ [k])]
      rw [firstSeenAux_congr rest (acc ++ [k]) (k :: acc)
        (by intro x; constructor <;> (intro hx; simp at hx ⊢; tauto))]
      simp

theorem firstSeenAux_append (l1 : List String) :
    ∀ l2 seen, firstSeenAux seen (l1 ++ l2)
      = firstSeenAux seen l1 ++ firstSeenAux (l1 ++ seen) l2 := by
  induction l1 with
  | nil => intro l2 seen; simp [firstSeenAux]
  | cons k rest ih =>
    intro l2 seen
    by_cases hk : k ∈ seen
    · rw [List.cons_append, firstSeenAux, if_pos hk, ih l2 seen,
        firstSeenAux, if_pos hk]
      rw [firstSeenAux_congr l2 (rest ++ seen) (k :: rest ++ seen) ?_]
      intro x
      simp only [List.cons_append, List.mem_cons, List.mem_append]
      constructor
      · intro hx; tauto
      · rintro (hxk | hx | hx)
        · exact Or.inr (hxk ▸ hk)
        · exact Or.inl hx
        · exact Or.inr hx
    · rw [List.cons_append, firstSeenAux, if_neg hk, ih l2 (k :: seen),
        firstSeenAux, if_neg hk]
      rw [firstSeenAux_congr l2 (rest ++ k :: seen) (k :: rest ++ seen)
        (by intro x; constructor <;> (intro hx; simp at hx ⊢; tauto))]
      simp

theorem mem_firstSeenAux (l : List String) :
    ∀ seen x, x ∈ firstSeenAux seen l ↔ x ∈ l ∧ x ∉ seen := by
  induction l with
  | nil => intro seen x; simp [firstSeenAux]
  | cons k rest ih =>
    intro seen x
    rw [firstSeenAux]
    by_cases hk : k ∈ seen
    · rw [if_pos hk, ih]
      simp only [List.mem_cons]
      constructor
      · rintro ⟨h1, h2⟩; exact ⟨Or.inr h1, h2⟩
      · rintro ⟨h1 | h1, h2⟩
        · exact absurd (h1 ▸ hk) h2
        · exact ⟨h1, h2⟩
    · rw [if_neg hk]
      simp only [List.mem_cons, ih]
      constructor
      · rintro (h1 | ⟨h1, h2⟩)
        · exact ⟨Or.inl h1, h1 ▸ hk⟩
        · exact ⟨Or.inr h1, fun hc => h2 (by simp [hc])⟩
      · rintro ⟨h1 | h1, h2⟩
        · exact Or.inl h1
        · by_cases hxk : x = k
          · exact Or.inl hxk
          · exact Or.inr ⟨h1, by simp [hxk, h2]⟩

theorem collectHeaders_foldl (data : List Entry) :
    ∀ acc, data.foldl (fun hs e => collectKeys hs (entryKeys e)) acc
      = acc ++ firstSeenAux acc (data.map entryKeys).flatten := by
  induction data with
  | nil => intro acc; simp [firstSeenAux]
  | cons e rest ih =>
    intro acc
    rw [List.foldl_cons, ih (collectKeys acc (entryKeys e)),
      collectKeys_eq (entryKeys e) acc, List.map_cons, List.flatten_cons,
      firstSeenAux_append (entryKeys e) _ acc]
    rw [firstSeenAux_congr (rest.map entryKeys).flatten
      (acc ++ firstSeenAux acc (entryKeys e)) (entryKeys e ++ acc) ?_]
    · simp
    · intro x
      constructor
      · intro hx
        rcases List.mem_append.mp hx with h1 | h1
        · simp [h1]
        · have := (mem_firstSeenAux (entryKeys e) acc x).mp h1
          simp [this.1]
      · intro hx
        rcases List.mem_append.mp hx with h1 | h1
        · by_cases ha : x ∈ acc
          · exact List.mem_append.mpr (Or.inl ha)
          · exact List.mem_append.mpr
              (Or.inr ((mem_firstSeenAux (entryKeys e) acc x).mpr ⟨h1, ha⟩))
        · exact List.mem_append.mpr (Or.inl h1)

theorem nodup_firstSeenAux (l : List String) :
    ∀ seen, (firstSeenAux seen l).Nodup := by
  induction l with
  | nil => intro seen; simp [firstSeenAux]
  | cons k rest ih =>
    intro seen
    rw [firstSeenAux]
    by_cases hk : k ∈ seen
    · rw [if_pos hk]; exact ih seen
    · rw [if_neg hk]
      refine List.nodup_cons.mpr ⟨?_, ih (k :: seen)⟩
      intro hc
      exact ((mem_firstSeenAux rest (k :: seen) k).mp hc).2 (by simp)

theorem entryGet_of_not_mem (e : Entry) (k : String)
    (h : k ∉ entryKeys e) : entryGet e k = "" := by
  induction e with
  | nil => rfl
  | cons kv rest ih =>
    rw [entryKeys, List.map_cons] at h
    simp only [List.mem_cons, not_or] at h
    have hbeq : (k == kv.1) = false := beq_eq_false_iff_ne.mpr h.1
    rw [entryGet, List.lookup, hbeq]
    exact ih h.2

end Report

namespace Fix

theorem processLoop_eq (api : CsvRow → ApiResult) (rows : List CsvRow) :
    ∀ acc, processLoop api rows acc =
      { successes := acc.successes +
          (rows.filter (fun r => (gatewayOutcome api r).1)).length
        failures := acc.failures +
          (rows.filter (fun r => !(gatewayOutcome api r).1)).length
        apiCalls := acc.apiCalls +
          (rows.map (fun r => (gatewayOutcome api r).2)).sum } := by
  induction rows with
  | nil => intro acc; simp [processLoop]
  | cons r rest ih =>
    intro acc
    rw [processLoop, ih]
    cases h : (gatewayOutcome api r).1 <;>
      simp [h, List.filter_cons] <;> constructor <;> omega

theorem gatewayOutcome_calls_le_one (api : CsvRow → ApiResult)
    (r : CsvRow) : (gatewayOutcome api r).2 ≤ 1 := by
  rw [gatewayOutcome]
  cases hs : falsyStr r.cluster_site_id
  · cases hd : falsyStr r.cluster_device_id
    · cases ha : api r <;> simp
    · simp
  · simp

theorem sum_calls_le_length (api : CsvRow → ApiResult)
    (rows : List CsvRow) :
    (rows.map (fun r => (gatewayOutcome api r).2)).sum ≤ rows.length := by
  induction rows with
  | nil => simp
  | cons r rest ih =>
    simp only [List.map_cons, List.sum_cons, List.length_cons]
    have := gatewayOutcome_calls_le_one api r
    omega

theorem dedupFirstBy_congr (l : List CsvRow) :
    ∀ seen1 seen2, (∀ x, x ∈ seen1 ↔ x ∈ seen2) →
      dedupFirstBy seen1 l = dedupFirstBy seen2 l := by
  induction l with
  | nil => intro seen1 seen2 _; rfl
  | cons r rest ih =>
    intro seen1 seen2 h
    rw [dedupFirstBy, dedupFirstBy]
    by_cases hm : r.cluster_device_id ∈ seen1
    · rw [if_pos hm, if_pos ((h _).mp hm)]
      exact ih seen1 seen2 h
    · rw [if_neg hm, if_neg (fun hc => hm ((h _).mpr hc))]
      rw [ih (r.cluster_device_id :: seen1) (r.cluster_device_id :: seen2)
        (by intro x; simp [h x])]

theorem readCsvLoop_eq (site_id : Option String) (rows : List CsvRow) :
    ∀ data device_ids, (∀ r ∈ rows, r.module_model ≠ none) →
      readCsvLoop site_id rows data device_ids
        = Except.ok (data ++
            dedupFirstBy device_ids (rows.filter (specQualifies site_id))) := by
  induction rows with
  | nil => intro data device_ids _; simp [readCsvLoop, dedupFirstBy]
  | cons row rest ih =>
    intro data device_ids h
    have hrow := h row (by simp)
    have hrest : ∀ r ∈ rest, r.module_model ≠ none := by
      intro r hr; exact h r (by simp [hr])
    cases hm : row.module_model with
    | none => exact absurd hm hrow
    | some m =>
      rw [readCsvLoop]
      simp only [hm]
      cases hsrx : strContains m "SRX" with
      | false =>
        have hq : specQualifies site_id row = false := by
          simp [specQualifies, hm, hsrx]
        rw [if_pos (show (!false) = true by rfl), ih data device_ids hrest]
        simp [List.filter_cons, hq]
      | true =>
        rw [if_neg (show ¬((!true) = true) by simp)]
        cases hsite : (!falsyStr site_id
            && row.cluster_site_id != site_id) with
        | true =>
          have hq : specQualifies site_id row = false := by
            cases hsid : site_id with
            | none => rw [hsid] at hsite; simp [falsyStr] at hsite
            | some s =>
              rw [hsid] at hsite
              simp only [falsyStr, Bool.and_eq_true,
                Bool.not_eq_true'] at hsite
              have hne : row.cluster_site_id ≠ some s :=
                bne_iff_ne.mp hsite.2
              simp [specQualifies, hsid, hsite.1,
                beq_eq_false_iff_ne.mpr hne]
          rw [if_pos (show true = true by rfl), ih data device_ids hrest]
          simp [List.filter_cons, hq]
        | false =>
          rw [if_neg (show ¬(false = true) by simp)]
          cases hsnap : (row.module_need_snapshot != some "True") with
          | true =>
            have hq : specQualifies site_id row = false := by
              have hne : row.module_need_snapshot ≠ some "True" :=
                bne_iff_ne.mp hsnap
              simp [specQualifies, beq_eq_false_iff_ne.mpr hne]
            rw [if_pos (show true = true by rfl), ih data device_ids hrest]
            simp [List.filter_cons, hq]
          | false =>
            rw [if_neg (show ¬(false = true) by simp)]
            have hsnap2 : (row.module_need_snapshot == some "True") = true := by
              cases hb : (row.module_need_snapshot == some "True")
              · rw [bne, hb] at hsnap; simp at hsnap
              · rfl
            have hq : specQualifies site_id row = true := by
              cases hsid : site_id with
              | none => simp [specQualifies, hm, hsrx, hsnap2]
              | some s =>
                rw [hsid] at hsite
                simp only [falsyStr, Bool.and_eq_false_iff,
                  Bool.not_eq_false'] at hsite
                rcases hsite with hks | hcl
                · simp [specQualifies, hm, hsrx, hsnap2, hsid, hks]
                · have hcl2 : (row.cluster_site_id == some s) = true := by
                    cases hb : (row.cluster_site_id == some s)
                    · rw [bne, hb] at hcl; simp at hcl
                    · rfl
                  simp [specQualifies, hm, hsrx, hsnap2, hsid, hcl2]
            have hfilter : (row :: rest).filter (specQualifies site_id)
                = row :: rest.filter (specQualifies site_id) := by
              simp [List.filter_cons, hq]
            by_cases hdup : row.cluster_device_id ∈ device_ids
            · rw [if_pos hdup, ih data device_ids hrest, hfilter,
                dedupFirstBy, if_pos hdup]
            · rw [if_neg hdup,
                ih (data ++ [row]) (device_ids ++ [row.cluster_device_id])
                  hrest,
                hfilter, dedupFirstBy, if_neg hdup]
              rw [dedupFirstBy_congr _
                (device_ids ++ [row.cluster_device_id])
                (row.cluster_device_id :: device_ids)
                (by intro x; constructor <;> (intro hx; simp at hx ⊢; tauto))]
              simp

theorem dedupFirstBy_ids_nodup (l : List CsvRow) :
    ∀ seen, ((dedupFirstBy seen l).map
        (fun r => r.cluster_device_id)).Nodup
      ∧ ∀ r ∈ dedupFirstBy seen l, r.cluster_device_id ∉ seen := by
  induction l with
  | nil => intro seen; simp [dedupFirstBy]
  | cons r rest ih =>
    intro seen
    rw [dedupFirstBy]
    by_cases hm : r.cluster_device_id ∈ seen
    · rw [if_pos hm]; exact ih seen
    · rw [if_neg hm]
      obtain ⟨hnd, hout⟩ := ih (r.cluster_device_id :: seen)
      refine ⟨?_, ?_⟩
      · simp only [List.map_cons, List.nodup_cons]
        refine ⟨?_, hnd⟩
        intro hc
        obtain ⟨r2, hr2, hid⟩ := List.mem_map.mp hc
        exact hout r2 hr2 (by rw [hid]; simp)
      · intro r2 hr2
        rcases List.mem_cons.mp hr2 with h1 | h2
        · rw [h1]; exact hm
        · intro hc
          exact hout r2 h2 (by simp [hc])

end Fix

namespace OrgAdmins

theorem rowFields_of_len3 (r : List String) (h : 3 ≤ r.length) :
    rowFields r = some (r.getD 0 "", r.getD 1 "", r.getD 2 "") := by
  cases r with
  | nil => simp at h
  | cons a t =>
    cases t with
    | nil => simp at h
    | cons b t2 =>
      cases t2 with
      | nil => simp at h
      | cons c t3 => rfl

theorem rowFields_of_short (r : List String) (h : r.length < 3) :
    rowFields r = none := by
  cases r with
  | nil => rfl
  | cons a t =>
    cases t with
    | nil => rfl
    | cons b t2 =>
      cases t2 with
      | nil => rfl
      | cons c t3 => simp at h; omega

theorem inviteLoop_ok_prefix (pre : List (List String)) :
    ∀ tail acc, (∀ r ∈ pre, 3 ≤ r.length) →
      inviteLoop (pre ++ tail) acc
        = inviteLoop tail (acc ++ pre.map
            (fun r => (r.getD 0 "", r.getD 1 "", r.getD 2 ""))) := by
  induction pre with
  | nil => intro tail acc _; simp
  | cons r rest ih =>
    intro tail acc h
    have h3 := h r (by simp)
    rw [List.cons_append, inviteLoop, rowFields_of_len3 r h3]
    show inviteLoop (rest ++ tail)
        (acc ++ [(r.getD 0 "", r.getD 1 "", r.getD 2 "")]) = _
    rw [ih tail _ (fun r2 hr2 => h r2 (by simp [hr2]))]
    simp

end OrgAdmins

/-! ## Claim theorems -/

/-- C2: the row emitted by `_process_module` is appended to the data and
is a pure function of the module record (and the cluster fields);
`module_need_snapshot` is true iff the module's `version` differs from
its `backup_version`, and `module_need_reboot` is true iff its
`pending_version` is a non-empty string. -/
theorem c2_need_flags (cn cv cd cs : Option String) (m : Report.ModuleStat)
    (data : List Report.ReportRow) :
    Report._process_module cn cv cd cs m data
      = data ++ [Report._module_row cn cv cd cs m]
    ∧ ((Report._module_row cn cv cd cs m).module_need_snapshot = true
        ↔ m.version ≠ m.backup_version)
    ∧ ((Report._module_row cn cv cd cs m).module_need_reboot = true
        ↔ ∃ s, m.pending_version = some s ∧ s ≠ "") := by
  refine ⟨rfl, ?_, ?_⟩
  · simp [Report._module_row, bne_iff_ne]
  · cases h : m.pending_version with
    | none => simp [Report._module_row, h]
    | some s => simp [Report._module_row, h, bne_iff_ne]

/-- C4: for both the org-scope and the site-scope pagination loop, the
final gateway list is the concatenation of all pages in order, so its
length is the sum of the page lengths and every entry's multiplicity is
preserved (nothing duplicated, nothing dropped). -/
theorem c4_pagination (firstPage : List Report.GatewayStat)
    (nextPages : List (List Report.GatewayStat)) :
    Report._get_org_gateways firstPage nextPages
      = (firstPage :: nextPages).flatten
    ∧ Report._get_site_gateways firstPage nextPages
      = (firstPage :: nextPages).flatten
    ∧ (Report._get_org_gateways firstPage nextPages).length
      = ((firstPage :: nextPages).map List.length).sum
    ∧ ∀ x, (Report._get_org_gateways firstPage nextPages).count x
      = ((firstPage :: nextPages).map (List.count x)).sum := by
  have h : Report.pageLoop firstPage nextPages
      = (firstPage :: nextPages).flatten := by
    rw [Report.pageLoop_eq]; simp
  refine ⟨h, h, ?_, ?_⟩
  · rw [Report._get_org_gateways, h, List.length_flatten]
  · intro x
    rw [Report._get_org_gateways, h, List.count_flatten]

/-- C3: in the Backup Trigger's per-device loop, a candidate is a
success exactly when both ids are present and the snapshot call returns
HTTP 200; a missing id means a per-item failure with no API call; every
candidate is counted exactly once as success or failure (the batch never
aborts), at most one API call is made per candidate (no retries), and in
the concrete 5-candidate scenario where the calls for candidates 2 and 4
raise, the run completes with exactly 3 successes, 2 failures and 5 API
calls. -/
theorem c3_batch_semantics (api : Fix.CsvRow → Fix.ApiResult)
    (rows : List Fix.CsvRow) :
    (Fix._process_gateways api rows).successes
      = (rows.filter (fun r => (Fix.gatewayOutcome api r).1)).length
    ∧ (Fix._process_gateways api rows).failures
      = (rows.filter (fun r => !(Fix.gatewayOutcome api r).1)).length
    ∧ (Fix._process_gateways api rows).successes
        + (Fix._process_gateways api rows).failures = rows.length
    ∧ (∀ r, (Fix.gatewayOutcome api r).1 = true
        ↔ falsyStr r.cluster_site_id = false
          ∧ falsyStr r.cluster_device_id = false
          ∧ api r = Fix.ApiResult.ok 200)
    ∧ (∀ r, falsyStr r.cluster_site_id = true
          ∨ falsyStr r.cluster_device_id = true →
        Fix.gatewayOutcome api r = (false, 0))
    ∧ (Fix._process_gateways api rows).apiCalls ≤ rows.length
    ∧ Fix._process_gateways Fix.apiScenario Fix.rows5
        = { successes := 3, failures := 2, apiCalls := 5 } := by
  have hloop := Fix.processLoop_eq api rows
    { successes := 0, failures := 0, apiCalls := 0 }
  refine ⟨?_, ?_, ?_, ?_, ?_, ?_, by decide⟩
  · rw [Fix._process_gateways, hloop]; simp
  · rw [Fix._process_gateways, hloop]; simp
  · rw [Fix._process_gateways, hloop]
    simpa using (List.length_eq_length_filter_add
      (l := rows) (fun r => (Fix.gatewayOutcome api r).1)).symm
  · intro r
    rw [Fix.gatewayOutcome]
    cases hs : falsyStr r.cluster_site_id with
    | true => simp [hs]
    | false =>
      cases hd : falsyStr r.cluster_device_id with
      | true => simp [hs, hd]
      | false =>
        cases ha : api r with
        | ok code => simp [hs, hd, ha]
        | raised => simp [hs, hd, ha]
  · intro r hr
    rw [Fix.gatewayOutcome]
    rcases hr with hs | hd
    · simp [hs]
    · cases hs : falsyStr r.cluster_site_id <;> simp [hs, hd]
  · rw [Fix._process_gateways, hloop]
    simpa using Fix.sum_calls_le_length api rows

theorem c3_batch_semantics_witness :
    Fix.gatewayOutcome Fix.apiScenario Fix.rowMissingSite = (false, 0)
    ∧ Fix._process_gateways Fix.apiScenario Fix.rows5
        = { successes := 3, failures := 2, apiCalls := 5 } :=
  ⟨(c3_batch_semantics Fix.apiScenario Fix.rows5).2.2.2.2.1
      Fix.rowMissingSite (Or.inl (by decide)),
   (c3_batch_semantics Fix.apiScenario Fix.rows5).2.2.2.2.2.2⟩

/-- C1: in the Backup Trigger's CSV-reading step, provided every data
row carries a `module_model` value, the selected candidates are exactly
the rows whose model contains "SRX", whose `module_need_snapshot` is the
string "True" and which pass the optional site filter, deduplicated by
`cluster_device_id` with the first row in file order winning; in
particular the selected rows' device ids are pairwise distinct. -/
theorem c1_read_csv_filter (site_id : Option String)
    (rows : List Fix.CsvRow)
    (h : ∀ r ∈ rows, r.module_model ≠ none) :
    Fix._read_csv site_id rows
      = Except.ok (Fix.specSelect site_id rows)
    ∧ ((Fix.specSelect site_id rows).map
        (fun r => r.cluster_device_id)).Nodup := by
  constructor
  · rw [Fix._read_csv, Fix.readCsvLoop_eq site_id rows [] [] h,
      Fix.specSelect]
    simp
  · exact (Fix.dedupFirstBy_ids_nodup
      (rows.filter (Fix.specQualifies site_id)) []).1

theorem c1_read_csv_filter_witness :
    (∀ r ∈ [Fix.mkCandidate "d1", Fix.mkCandidate "d1"],
      r.module_model ≠ none)
    ∧ (Fix._read_csv none [Fix.mkCandidate "d1", Fix.mkCandidate "d1"]
        = Except.ok
            (Fix.specSelect none [Fix.mkCandidate "d1", Fix.mkCandidate "d1"])
      ∧ ((Fix.specSelect none
            [Fix.mkCandidate "d1", Fix.mkCandidate "d1"]).map
          (fun r => r.cluster_device_id)).Nodup) :=
  ⟨by decide,
   c1_read_csv_filter none [Fix.mkCandidate "d1", Fix.mkCandidate "d1"]
     (by decide)⟩

/-- C5: if the Backup Trigger's filtered candidate set is empty, the
run prints the compliance message and exits with code 0, without
prompting for confirmation and without issuing any snapshot API call. -/
theorem c5_empty_candidates (api : Fix.CsvRow → Fix.ApiResult)
    (site_id : Option String) (rows : List Fix.CsvRow)
    (auto_approve : Bool) (answer : String)
    (h : Fix._read_csv site_id rows = Except.ok []) :
    Fix._start api site_id (Except.ok rows) auto_approve answer
      = { exitCode := some 0, printedCompliance := true,
          prompted := false, outcome := none } := by
  rw [Fix._start]
  simp [h]

theorem c5_empty_candidates_witness :
    Fix._read_csv (some "siteX") [] = Except.ok []
    ∧ Fix._start Fix.apiScenario (some "siteX") (Except.ok []) false "y"
      = { exitCode := some 0, printedCompliance := true,
          prompted := false, outcome := none } :=
  ⟨rfl,
   c5_empty_candidates Fix.apiScenario (some "siteX") [] false "y" rfl⟩

/-- C6: if any CSV row has fewer than 3 columns, the Admin Inviter's
loop raises at the first such row; exactly the rows before it get an
invite call, the catch-all handler reports the run as failed, no row
after the failing one is processed, and the script still prints the
organization's resulting admin list. -/
theorem c6_admin_inviter_abort (pre : List (List String))
    (bad : List String) (rest : List (List String))
    (hpre : ∀ r ∈ pre, 3 ≤ r.length) (hbad : bad.length < 3) :
    OrgAdmins.runImport (pre ++ bad :: rest)
      = { issued := pre.map
            (fun r => (r.getD 0 "", r.getD 1 "", r.getD 2 "")),
          errorReported := true, adminListPrinted := true } := by
  rw [OrgAdmins.runImport,
    OrgAdmins.inviteLoop_ok_prefix pre (bad :: rest) [] hpre,
    OrgAdmins.inviteLoop, OrgAdmins.rowFields_of_short bad hbad]
  simp

theorem c6_admin_inviter_abort_witness :
    (∀ r ∈ [["a@x.io", "Ann", "Ace"]], 3 ≤ r.length)
    ∧ (["b@x.io"] : List String).length < 3
    ∧ OrgAdmins.runImport
        [["a@x.io", "Ann", "Ace"], ["b@x.io"], ["c@x.io", "Cy", "Coe"]]
      = { issued := [("a@x.io", "Ann", "Ace")],
          errorReported := true, adminListPrinted := true } :=
  ⟨by decide, by decide,
   c6_admin_inviter_abort [["a@x.io", "Ann", "Ace"]] ["b@x.io"]
     [["c@x.io", "Cy", "Coe"]] (by decide) (by decide)⟩

/-- C7: the Backup Trigger exits with code 0 on `--help`, when the
filtered candidate set is empty, and when the user declines the
confirmation prompt; with code 2 when the `mistapi` package is missing
or its version is below the required minimum; and with code 1 when
reading the input CSV fails (unreadable file or a raising row loop). -/
theorem c7_exit_codes (installed : Bool) (version : String)
    (helpRequested : Bool) (api : Fix.CsvRow → Fix.ApiResult)
    (site_id : Option String) (csvRead : Except Unit (List Fix.CsvRow))
    (auto_approve : Bool) (answer : String) :
    (installed = false →
      (Fix.triggerMain installed version helpRequested api site_id
        csvRead auto_approve answer).exitCode = some 2)
    ∧ (installed = true → helpRequested = true →
      (Fix.triggerMain installed version helpRequested api site_id
        csvRead auto_approve answer).exitCode = some 0)
    ∧ (installed = true → helpRequested = false →
      version < Fix.MISTAPI_MIN_VERSION →
      (Fix.triggerMain installed version helpRequested api site_id
        csvRead auto_approve answer).exitCode = some 2)
    ∧ (installed = true → helpRequested = false →
      ¬version < Fix.MISTAPI_MIN_VERSION → csvRead = Except.error () →
      (Fix.triggerMain installed version helpRequested api site_id
        csvRead auto_approve answer).exitCode = some 1)
    ∧ (∀ rows msg, installed = true → helpRequested = false →
      ¬version < Fix.MISTAPI_MIN_VERSION → csvRead = Except.ok rows →
      Fix._read_csv site_id rows = Except.error msg →
      (Fix.triggerMain installed version helpRequested api site_id
        csvRead auto_approve answer).exitCode = some 1)
    ∧ (∀ rows, installed = true → helpRequested = false →
      ¬version < Fix.MISTAPI_MIN_VERSION → csvRead = Except.ok rows →
      Fix._read_csv site_id rows = Except.ok [] →
      (Fix.triggerMain installed version helpRequested api site_id
        csvRead auto_approve answer).exitCode = some 0)
    ∧ (∀ rows data, installed = true → helpRequested = false →
      ¬version < Fix.MISTAPI_MIN_VERSION → csvRead = Except.ok rows →
      Fix._read_csv site_id rows = Except.ok data → data ≠ [] →
      auto_approve = false → strLower answer ≠ "y" →
      (Fix.triggerMain installed version helpRequested api site_id
        csvRead auto_approve answer).exitCode = some 0
      ∧ (Fix.triggerMain installed version helpRequested api site_id
        csvRead auto_approve answer).prompted = true) := by
  refine ⟨?_, ?_, ?_, ?_, ?_, ?_, ?_⟩
  · intro h1; simp [Fix.triggerMain, h1]
  · intro h1 h2; simp [Fix.triggerMain, h1, h2]
  · intro h1 h2 hv; simp [Fix.triggerMain, h1, h2, hv]
  · intro h1 h2 hv hcsv
    simp [Fix.triggerMain, Fix._start, h1, h2, hv, hcsv]
  · intro rows msg h1 h2 hv hcsv hread
    simp [Fix.triggerMain, Fix._start, h1, h2, hv, hcsv, hread]
  · intro rows h1 h2 hv hcsv hread
    simp [Fix.triggerMain, Fix._start, h1, h2, hv, hcsv, hread]
  · intro rows data h1 h2 hv hcsv hread hne hauto hans
    have hemp : data.isEmpty = false := by
      cases data with
      | nil => exact absurd rfl hne
      | cons a l => rfl
    have hy : (strLower answer == "y") = false := beq_eq_false_iff_ne.mpr hans
    constructor <;>
      simp [Fix.triggerMain, Fix._start, h1, h2, hv, hcsv, hread, hemp,
        hauto, hy]

theorem c7_exit_codes_witness :
    (Fix.triggerMain false "0.53.0" false Fix.apiScenario none
      (Except.ok []) false "").exitCode = some 2
    ∧ (Fix.triggerMain true "0.53.0" true Fix.apiScenario none
      (Except.ok []) false "").exitCode = some 0
    ∧ (Fix.triggerMain true "0.44.1" false Fix.apiScenario none
      (Except.ok []) false "").exitCode = some 2
    ∧ (Fix.triggerMain true "0.53.0" false Fix.apiScenario none
      (Except.error ()) false "").exitCode = some 1
    ∧ (Fix.triggerMain true "0.53.0" false Fix.apiScenario none
      (Except.ok [Fix.rowNoModel]) false "").exitCode = some 1
    ∧ (Fix.triggerMain true "0.53.0" false Fix.apiScenario none
      (Except.ok []) false "").exitCode = some 0
    ∧ ((Fix.triggerMain true "0.53.0" false Fix.apiScenario none
      (Except.ok [Fix.mkCandidate "d1"]) false "n").exitCode = some 0
      ∧ (Fix.triggerMain true "0.53.0" false Fix.apiScenario none
      (Except.ok [Fix.mkCandidate "d1"]) false "n").prompted = true) :=
  ⟨(c7_exit_codes false "0.53.0" false Fix.apiScenario none
      (Except.ok []) false "").1 rfl,
   (c7_exit_codes true "0.53.0" true Fix.apiScenario none
      (Except.ok []) false "").2.1 rfl rfl,
   (c7_exit_codes true "0.44.1" false Fix.apiScenario none
      (Except.ok []) false "").2.2.1 rfl rfl
      (by rw [String.lt_iff_toList_lt]; decide),
   (c7_exit_codes true "0.53.0" false Fix.apiScenario none
      (Except.error ()) false "").2.2.2.1 rfl rfl
      (by rw [String.lt_iff_toList_lt]; decide) rfl,
   (c7_exit_codes true "0.53.0" false Fix.apiScenario none
      (Except.ok [Fix.rowNoModel]) false "").2.2.2.2.1 [Fix.rowNoModel]
      "TypeError" rfl rfl (by rw [String.lt_iff_toList_lt]; decide) rfl rfl,
   (c7_exit_codes true "0.53.0" false Fix.apiScenario none
      (Except.ok []) false "").2.2.2.2.2.1 [] rfl rfl
      (by rw [String.lt_iff_toList_lt]; decide) rfl rfl,
   (c7_exit_codes true "0.53.0" false Fix.apiScenario none
      (Except.ok [Fix.mkCandidate "d1"]) false "n").2.2.2.2.2.2
      [Fix.mkCandidate "d1"] [Fix.mkCandidate "d1"] rfl rfl
      (by rw [String.lt_iff_toList_lt]; decide)
      rfl rfl (by decide) rfl (by decide)⟩

/-- C8 (counterexample): for a gateway whose `module_stat` key is
present but holds an empty list, the Firmware Reporter raises an
`IndexError` instead of producing the claimed primary-module row. -/
theorem c8_counterexample :
    Report._process_gateways [Report.gwEmptyModuleStat]
      = Except.error "IndexError" := rfl

/-- C8 (amended): for every gateway device stat object whose
`module_stat` field, when present, is non-empty, exactly one output row
is produced for the primary module, and exactly one additional row is
produced iff the device has a truthy `module2_stat`; the rows appear in
device order (the output is the in-order concatenation of each device's
rows). -/
theorem c8_rows_per_device (gws : List Report.GatewayStat)
    (h : ∀ g ∈ gws, g.module_stat ≠ some []) :
    Report._process_gateways gws
      = Except.ok ((gws.map Report.deviceRows).flatten)
    ∧ ∀ g ∈ gws, (Report.deviceRows g).length
      = if Report.truthyModules g.module2_stat then 2 else 1 := by
  constructor
  · rw [Report._process_gateways,
      Report._process_gateways_loop_eq gws [] h]
    simp
  · intro g hg
    exact Report.deviceRows_length g (h g hg)

theorem c8_rows_per_device_witness :
    (∀ g ∈ [Report.gwNoPrimaryWithSecond], g.module_stat ≠ some [])
    ∧ (Report._process_gateways [Report.gwNoPrimaryWithSecond]
        = Except.ok
            (([Report.gwNoPrimaryWithSecond].map Report.deviceRows).flatten)
      ∧ ∀ g ∈ [Report.gwNoPrimaryWithSecond], (Report.deviceRows g).length
        = if Report.truthyModules g.module2_stat then 2 else 1) :=
  ⟨by decide,
   c8_rows_per_device [Report.gwNoPrimaryWithSecond] (by decide)⟩

/-- C10 (counterexample): a gateway that lacks the `module_stat` key but
carries a truthy `module2_stat` contributes two rows, not exactly
one. -/
theorem c10_counterexample :
    (Report._process_gateways [Report.gwNoPrimaryWithSecond]).map
      List.length = Except.ok 2 := rfl

/-- C10 (amended): a gateway device stat object that lacks the
`module_stat` key still yields a primary-module row whose module fields
(serial, mac, model, version, backup_version, pending_version) are all
`None`, with `module_need_snapshot = False` and
`module_need_reboot = False`; that row is the device's only row whenever
`module2_stat` is not truthy; and a device whose `module_stat` key is
present but holds an empty list raises an out-of-bounds indexing error
instead of emitting a row. -/
theorem c10_missing_module_stat (g : Report.GatewayStat)
    (h : g.module_stat = none) :
    Report._process_gateways [g] = Except.ok (Report.deviceRows g)
    ∧ (Report.deviceRows g).head?
      = some (Report._module_row g.name g.version g.id g.site_id
          Report.emptyModule)
    ∧ (Report._module_row g.name g.version g.id g.site_id
        Report.emptyModule).module_serial = none
    ∧ (Report._module_row g.name g.version g.id g.site_id
        Report.emptyModule).module_mac = none
    ∧ (Report._module_row g.name g.version g.id g.site_id
        Report.emptyModule).module_model = none
    ∧ (Report._module_row g.name g.version g.id g.site_id
        Report.emptyModule).module_version = none
    ∧ (Report._module_row g.name g.version g.id g.site_id
        Report.emptyModule).module_backup_version = none
    ∧ (Report._module_row g.name g.version g.id g.site_id
        Report.emptyModule).module_pending_version = none
    ∧ (Report._module_row g.name g.version g.id g.site_id
        Report.emptyModule).module_need_snapshot = false
    ∧ (Report._module_row g.name g.version g.id g.site_id
        Report.emptyModule).module_need_reboot = false
    ∧ (Report.truthyModules g.module2_stat = false →
        Report.deviceRows g
          = [Report._module_row g.name g.version g.id g.site_id
              Report.emptyModule])
    ∧ (∀ g2 : Report.GatewayStat, g2.module_stat = some [] →
        Report._process_gateways [g2] = Except.error "IndexError") := by
  have hne : g.module_stat ≠ some [] := by rw [h]; intro hc; cases hc
  have hone : Report._process_gateways [g]
      = Except.ok (Report.deviceRows g) := by
    rw [Report._process_gateways,
      Report._process_gateways_loop_eq [g] []
        (by intro g2 hg2; simp at hg2; rw [hg2]; exact hne)]
    simp
  have hhead : (Report.deviceRows g).head?
      = some (Report._module_row g.name g.version g.id g.site_id
          Report.emptyModule) := by
    rw [Report.deviceRows, h]
    cases hm2 : g.module2_stat with
    | none => simp [Option.getD]
    | some l2 => cases l2 <;> simp [Option.getD]
  refine ⟨hone, hhead, rfl, rfl, rfl, rfl, rfl, rfl, rfl, rfl, ?_, ?_⟩
  · intro h2
    rw [Report.deviceRows, h]
    cases hm2 : g.module2_stat with
    | none => simp [Option.getD]
    | some l2 =>
      cases l2 with
      | nil => simp [Option.getD]
      | cons m2 t2 => rw [hm2] at h2; simp [Report.truthyModules] at h2
  · intro g2 hg2
    rw [Report._process_gateways, Report._process_gateways_loop]
    rw [show Report._process_cluster g2 [] = Except.error "IndexError" by
      rw [Report._process_cluster, hg2]; rfl]
    rfl

theorem c10_missing_module_stat_witness :
    (Report.gwNoPrimaryWithSecond.module_stat = none)
    ∧ ((Report.deviceRows Report.gwNoPrimaryWithSecond).head?
      = some (Report._module_row Report.gwNoPrimaryWithSecond.name
          Report.gwNoPrimaryWithSecond.version
          Report.gwNoPrimaryWithSecond.id
          Report.gwNoPrimaryWithSecond.site_id Report.emptyModule)) :=
  ⟨rfl, (c10_missing_module_stat Report.gwNoPrimaryWithSecond rfl).2.1⟩

/-- C9: for every non-empty data set, the rows written by `_save_as_csv`
are: one `#`-prefixed comment line naming the scope, then the header row
(the union of the keys seen across all data rows, in first-seen order,
with no duplicates), then one data line per row whose cells are the
row's values for the corresponding header (empty string when the key is
absent); the Backup Trigger's line filter drops the leading comment line
and keeps the header and data lines. -/
theorem c9_csv_format (data : List Report.Entry) (scope scope_id : String)
    (hne : data ≠ []) :
    Report._save_as_csv data scope scope_id
      = [Report.commentCell scope scope_id] :: Report.collectHeaders data ::
        data.map (fun e => (Report.collectHeaders data).map
          (fun k => Report.entryGet e k))
    ∧ Report.lineIsComment [Report.commentCell scope scope_id] = true
    ∧ Report.collectHeaders data = Report.specHeaders data
    ∧ (Report.collectHeaders data).Nodup
    ∧ (∀ k, k ∈ Report.collectHeaders data
        ↔ ∃ e ∈ data, k ∈ Report.entryKeys e)
    ∧ (∀ e k, k ∉ Report.entryKeys e → Report.entryGet e k = "")
    ∧ ((∀ r ∈ Report.collectHeaders data ::
          data.map (fun e => (Report.collectHeaders data).map
            (fun k => Report.entryGet e k)),
          Report.lineIsComment r = false) →
        Report.skipComments (Report._save_as_csv data scope scope_id)
          = Report.collectHeaders data ::
            data.map (fun e => (Report.collectHeaders data).map
              (fun k => Report.entryGet e k))) := by
  have hspec : Report.collectHeaders data = Report.specHeaders data := by
    rw [Report.collectHeaders, Report.collectHeaders_foldl data [],
      Report.specHeaders]
    simp
  have hcomment : Report.lineIsComment [Report.commentCell scope scope_id]
      = true := by
    have h : (Report.commentCell scope scope_id).toList
        = '#' :: ("Gateways Firmware Backup for ".toList ++ scope.toList
            ++ " ".toList ++ scope_id.toList) := rfl
    rw [Report.lineIsComment, h]
    rfl
  refine ⟨rfl, hcomment, hspec, ?_, ?_, ?_, ?_⟩
  · rw [hspec, Report.specHeaders]
    exact Report.nodup_firstSeenAux _ []
  · intro k
    rw [hspec, Report.specHeaders,
      Report.mem_firstSeenAux (data.map Report.entryKeys).flatten [] k]
    simp [List.mem_flatten]
  · intro e k hk
    exact Report.entryGet_of_not_mem e k hk
  · intro hrest
    rw [Report.skipComments, Report._save_as_csv]
    rw [List.filter_cons_of_neg (by simp [hcomment])]
    exact List.filter_eq_self.mpr (by intro r hr; simp [hrest r hr])

theorem c9_csv_format_witness :
    (([[("cluster_name", "gw1"), ("module_model", "SRX345")],
       [("module_model", "SRX345"), ("module_serial", "SN1")]] :
        List Report.Entry) ≠ [])
    ∧ Report.collectHeaders
        [[("cluster_name", "gw1"), ("module_model", "SRX345")],
         [("module_model", "SRX345"), ("module_serial", "SN1")]]
      = Report.specHeaders
        [[("cluster_name", "gw1"), ("module_model", "SRX345")],
         [("module_model", "SRX345"), ("module_serial", "SN1")]]
    ∧ Report.lineIsComment [Report.commentCell "org" "oid1"] = true :=
  ⟨by simp,
   (c9_csv_format
     [[("cluster_name", "gw1"), ("module_model", "SRX345")],
      [("module_model", "SRX345"), ("module_serial", "SN1")]]
     "org" "oid1" (by simp)).2.2.1,
   (c9_csv_format
     [[("cluster_name", "gw1"), ("module_model", "SRX345")],
      [("module_model", "SRX345"), ("module_serial", "SN1")]]
     "org" "oid1" (by simp)).2.1⟩
